import Mathlib

/-!
Shallow embedding of the order-intake and status-lifecycle flow of the
restaurant phone-ordering repository: the order-builder cart operations
(frontend order create page and its variant), the order status views,
the API client's order normalization, and the voice webhook bridge.

Prices are modelled as exact rationals, quantities and identifiers as
integers; the stateful React handlers are modelled as pure functions from
the state they read to the state they produce, with each network call's
outcome passed in explicitly as an `Except` value.
-/

set_option linter.unusedVariables false

/-! ### Data model (src/frontend/src/lib/api/types.ts) -/

/-- Order lifecycle states, from the `OrderStatus` union type. -/
inductive OrderStatus where
  | pending
  | confirmed
  | preparing
  | ready
  | delivered
  | cancelled
deriving DecidableEq, Repr, Fintype

/-- One chosen add-on stored on a cart line item (`add_ons` entries). -/
structure AddOnSelection where
  add_on_id : Int
  add_on_name : String
  price : ℚ
deriving DecidableEq, Repr

/-- A line item of an order, from the `OrderItem` interface. -/
structure OrderItem where
  menu_item_id : Int
  menu_item_name : String
  quantity : Int
  base_price : ℚ
  add_ons : List AddOnSelection
  total_price : ℚ
deriving DecidableEq, Repr

/-- A catalog menu item, from the `MenuItem` interface. -/
structure MenuItem where
  id : Int
  name : String
  category : String
  base_price : ℚ
  description : Option String
  is_available : Bool
deriving DecidableEq, Repr

/-- A catalog add-on, from the `AddOn` interface. -/
structure AddOn where
  id : Int
  name : String
  price : ℚ
  category : String
  type : Option String
  is_available : Bool
deriving DecidableEq, Repr

/-- A persisted order, from the `Order` interface. -/
structure Order where
  id : Int
  customer_id : Option Int
  customer_name : String
  customer_phone : String
  order_items : List OrderItem
  total_amount : ℚ
  status : OrderStatus
  estimated_preparation_time : Option Int
  payment_method : Option String
  special_instructions : Option String
  created_at : String
  updated_at : String
deriving DecidableEq, Repr

/-- In-place update of the element at one index, mirroring the JS pattern
`updatedItems[index].field = value` on a copied array; an out-of-range
index leaves the list unchanged. -/
def listModify (f : α → α) : Nat → List α → List α
  | _, [] => []
  | 0, x :: xs => f x :: xs
  | n + 1, x :: xs => x :: listModify f n xs

theorem listModify_get? (f : α → α) (n : Nat) (l : List α) :
    (listModify f n l).get? n = (l.get? n).map f := by
  induction l generalizing n with
  | nil => cases n <;> rfl
  | cons x xs ih => cases n with
    | zero => rfl
    | succ m => simpa [listModify] using ih m

theorem listModify_mem (f : α → α) (n : Nat) (l : List α) :
    ∀ x ∈ listModify f n l, x ∈ l ∨ ∃ y ∈ l, x = f y := by
  induction l generalizing n with
  | nil => intro x hx; simp [listModify] at hx
  | cons a as ih =>
    intro x hx
    cases n with
    | zero =>
      simp only [listModify, List.mem_cons] at hx
      rcases hx with hx | hx
      · exact Or.inr ⟨a, List.mem_cons_self a as, hx⟩
      · exact Or.inl (List.mem_cons_of_mem a hx)
    | succ m =>
      simp only [listModify, List.mem_cons] at hx
      rcases hx with hx | hx
      · exact Or.inl (hx ▸ List.mem_cons_self a as)
      · rcases ih m x hx with h | ⟨y, hy, hxy⟩
        · exact Or.inl (List.mem_cons_of_mem a h)
        · exact Or.inr ⟨y, List.mem_cons_of_mem a hy, hxy⟩

/-! ### Order-builder cart, main create page
(src/frontend/src/app/dashboard/orders/create/page.tsx) -/

namespace CreatePage

/-- `add_ons.reduce((sum, ao) => sum + ao.price, 0)`, the add-on subtotal
used by every total-price recomputation on this page. -/
def addonsTotal (addOns : List AddOnSelection) : ℚ :=
  addOns.foldl (fun sum ao => sum + ao.price) 0

/-- `selectedItems.reduce((total, item) => total + item.total_price, 0)`. -/
def totalAmount (selectedItems : List OrderItem) : ℚ :=
  selectedItems.foldl (fun total item => total + item.total_price) 0

/-- `handleAddItem`: increments the quantity of an existing line for the
same menu item (recomputing `total_price` as quantity × base price plus
the add-on subtotal counted once) or appends a fresh quantity-1 line. -/
def handleAddItem (selectedItems : List OrderItem) (menuItem : MenuItem) :
    List OrderItem :=
  match selectedItems.findIdx? (fun item => item.menu_item_id == menuItem.id) with
  | some i =>
      listModify (fun item =>
        let q := item.quantity + 1
        { item with
            quantity := q
            total_price := (q : ℚ) * item.base_price + addonsTotal item.add_ons })
        i selectedItems
  | none =>
      selectedItems ++
        [{ menu_item_id := menuItem.id
           menu_item_name := menuItem.name
           quantity := 1
           base_price := menuItem.base_price
           total_price := menuItem.base_price
           add_ons := [] }]

/-- `handleRemoveItem`: `updatedItems.splice(index, 1)`. -/
def handleRemoveItem (selectedItems : List OrderItem) (index : Nat) :
    List OrderItem :=
  selectedItems.eraseIdx index

/-- `handleUpdateQuantity`: a requested quantity ≤ 0 removes the line;
otherwise the quantity is stored and `total_price` recomputed as
quantity × base price plus the add-on subtotal counted once. -/
def handleUpdateQuantity (selectedItems : List OrderItem) (index : Nat)
    (quantity : Int) : List OrderItem :=
  if quantity ≤ 0 then
    handleRemoveItem selectedItems index
  else
    listModify (fun item =>
      { item with
          quantity := quantity
          total_price := (quantity : ℚ) * item.base_price + addonsTotal item.add_ons })
      index selectedItems

/-- `toggleAddOn`: removes the add-on if present, appends it otherwise,
then recomputes `total_price` as quantity × base price plus the new
add-on subtotal counted once. -/
def toggleAddOn (selectedItems : List OrderItem) (itemIndex : Nat) (ao : AddOn) :
    List OrderItem :=
  listModify (fun item =>
    let newAddOns :=
      if item.add_ons.any (fun x => x.add_on_id == ao.id) then
        item.add_ons.filter (fun x => x.add_on_id != ao.id)
      else
        item.add_ons ++ [{ add_on_id := ao.id, add_on_name := ao.name, price := ao.price }]
    { item with
        add_ons := newAddOns
        total_price := (item.quantity : ℚ) * item.base_price + addonsTotal newAddOns })
    itemIndex selectedItems

/-- Modal quantity controls: the decrement button applies
`Math.max(1, q - 1)`, the increment button `q + 1`. -/
def modalQuantityDec (q : Int) : Int := max 1 (q - 1)

def modalQuantityInc (q : Int) : Int := q + 1

/-- The modal opens with quantity 1 (`setModalQuantity(1)`). -/
def modalQuantityInit : Int := 1

/-- `addModalItemToOrder`: appends a line with the modal quantity, the
chosen add-ons, and `total_price` = quantity × base price plus the
add-on subtotal counted once. -/
def addModalItemToOrder (selectedItems : List OrderItem) (modalItem : MenuItem)
    (modalQuantity : Int) (modalSelectedAddOns : List AddOn) : List OrderItem :=
  let addonsTotalModal := modalSelectedAddOns.foldl (fun sum ao => sum + ao.price) 0
  selectedItems ++
    [{ menu_item_id := modalItem.id
       menu_item_name := modalItem.name
       quantity := modalQuantity
       base_price := modalItem.base_price
       add_ons := modalSelectedAddOns.map (fun ao =>
         { add_on_id := ao.id, add_on_name := ao.name, price := ao.price })
       total_price := (modalQuantity : ℚ) * modalItem.base_price + addonsTotalModal }]

end CreatePage

/-! ### Order-builder cart, variant create page
(src/unnamed/part_004, second component) -/

namespace VariantPage

/-- Variant `handleAddItem`: always appends a fresh quantity-1 line. -/
def handleAddItem (selectedItems : List OrderItem) (menuItem : MenuItem) :
    List OrderItem :=
  selectedItems ++
    [{ menu_item_id := menuItem.id
       menu_item_name := menuItem.name
       quantity := 1
       base_price := menuItem.base_price
       total_price := menuItem.base_price
       add_ons := [] }]

def handleRemoveItem (selectedItems : List OrderItem) (index : Nat) :
    List OrderItem :=
  selectedItems.eraseIdx index

/-- Variant `handleUpdateQuantity`: a requested quantity ≤ 0 removes the
line; otherwise `total_price` is recomputed as quantity × base price
only, dropping the add-on prices from the total. -/
def handleUpdateQuantity (selectedItems : List OrderItem) (index : Nat)
    (quantity : Int) : List OrderItem :=
  if quantity ≤ 0 then
    handleRemoveItem selectedItems index
  else
    listModify (fun item =>
      { item with
          quantity := quantity
          total_price := (quantity : ℚ) * item.base_price })
      index selectedItems

/-- Variant `confirmAddOns`: stores the chosen add-ons and recomputes
`total_price` as base price × quantity + add-on subtotal × quantity. -/
def confirmAddOns (selectedItems : List OrderItem) (selectedItemIndex : Nat)
    (selectedAddOns : List AddOnSelection) : List OrderItem :=
  let addOnTotalPrice := selectedAddOns.foldl (fun sum ao => sum + ao.price) 0
  listModify (fun item =>
    { item with
        add_ons := selectedAddOns
        total_price :=
          item.base_price * (item.quantity : ℚ) + addOnTotalPrice * (item.quantity : ℚ) })
    selectedItemIndex selectedItems

end VariantPage

/-! ### Phone input, validation and order submission
(src/frontend/src/app/dashboard/orders/create/page.tsx) -/

namespace CreatePage

/-- `value.replace(/\D/g, "")`: strip every non-digit character. -/
def digitsOnly (s : List Char) : List Char :=
  s.filter Char.isDigit

/-- `handleCustomerInfoChange` phone branch: strip non-digits, then format
as XXX-XXX-XXXX, keeping at most the first ten digits. -/
def formatPhone (value : List Char) : List Char :=
  let d := digitsOnly value
  if d.length ≤ 3 then d
  else if d.length ≤ 6 then d.take 3 ++ ['-'] ++ d.drop 3
  else d.take 3 ++ ['-'] ++ (d.drop 3).take 3 ++ ['-'] ++ (d.drop 6).take 4

/-- JS `String.prototype.trim`: strip leading and trailing whitespace. -/
def jsTrim (s : String) : String :=
  String.mk (((s.toList.dropWhile Char.isWhitespace).reverse.dropWhile
    Char.isWhitespace).reverse)

/-- The three inline validation failures of `validateOrderData`. -/
inductive ValidationError where
  | nameRequired
  | invalidPhone
  | noItems
deriving DecidableEq, Repr

/-- `validateOrderData`: requires a non-blank customer name, at least ten
digits in the phone field, and a non-empty cart, in that order. -/
def validateOrderData (name : String) (phone : List Char)
    (selectedItems : List OrderItem) : Option ValidationError :=
  if jsTrim name = "" then some ValidationError.nameRequired
  else if (digitsOnly phone).length < 10 then some ValidationError.invalidPhone
  else if selectedItems = [] then some ValidationError.noItems
  else none

/-- The create-order request payload, from the `OrderCreate` interface. -/
structure OrderCreate where
  customer_name : String
  customer_phone : List Char
  order_items : List OrderItem
  total_amount : ℚ
  special_instructions : Option String
deriving DecidableEq, Repr

/-- `handleCreateOrder`: aborts with the validation error before any
network call, otherwise builds the create request with the phone reduced
to digits only. -/
def handleCreateOrder (name : String) (phone : List Char)
    (selectedItems : List OrderItem) (specialInstructions : String) :
    Except ValidationError OrderCreate :=
  match validateOrderData name phone selectedItems with
  | some e => Except.error e
  | none =>
      Except.ok
        { customer_name := name
          customer_phone := digitsOnly phone
          order_items := selectedItems
          total_amount := totalAmount selectedItems
          special_instructions :=
            if specialInstructions = "" then none else some specialInstructions }

end CreatePage

/-! ### Status updates (src/frontend/src/lib/api/api-service.ts and the
orders list / order details pages) -/

/-- Body of `PUT /orders/\x7bid\x7d/status` as assembled by
`orderApi.updateStatus`: always carries `status`; carries
`estimated_preparation_time` only when a time argument was given. -/
structure StatusUpdateBody where
  status : OrderStatus
  estimated_preparation_time : Option Int
deriving DecidableEq, Repr

/-- `orderApi.updateStatus` request assembly. -/
def updateStatusBody (status : OrderStatus) (estimatedTime : Option Int) :
    StatusUpdateBody :=
  { status := status, estimated_preparation_time := estimatedTime }

/-- One status-update request: target order id plus body. -/
structure StatusUpdateRequest where
  orderId : Int
  body : StatusUpdateBody
deriving DecidableEq, Repr

/-- The user-visible notice kind raised by a handler (`toast.success` or
`toast.error`). -/
inductive Toast where
  | successToast
  | errorToast
deriving DecidableEq, Repr

/-- A failed network or server call, as seen by a `catch` block. -/
structure ApiError where
  message : String
deriving DecidableEq, Repr

namespace OrdersPage

/-- The status-action buttons rendered for an order on the orders list
page: pending shows Confirm and Cancel, confirmed shows Begin Prep,
preparing shows Mark Ready, ready shows Mark Delivered, and the terminal
states show no status action. -/
def availableStatusActions : OrderStatus → List OrderStatus
  | OrderStatus.pending => [OrderStatus.confirmed, OrderStatus.cancelled]
  | OrderStatus.confirmed => [OrderStatus.preparing]
  | OrderStatus.preparing => [OrderStatus.ready]
  | OrderStatus.ready => [OrderStatus.delivered]
  | OrderStatus.delivered => []
  | OrderStatus.cancelled => []

/-- `handleUpdateStatus` on the orders list page: issues exactly one
status-only update request; on success it rewrites only the status of the
matching order in the list and raises a success notice; on failure it
leaves the list untouched and raises an error notice, with no retry. -/
def handleUpdateStatus (orders : List Order) (orderId : Int)
    (newStatus : OrderStatus) (outcome : Except ApiError Order) :
    List StatusUpdateRequest × List Order × Toast :=
  ([{ orderId := orderId, body := updateStatusBody newStatus none }],
    match outcome with
    | Except.ok _ =>
        (orders.map (fun o => if o.id = orderId then { o with status := newStatus } else o),
          Toast.successToast)
    | Except.error _ => (orders, Toast.errorToast))

/-- The confirm dialog's state: which order is being confirmed and the
estimated-time input value. -/
structure ConfirmDialogState where
  confirmingOrderId : Option Int
  estimatedTime : Int
deriving DecidableEq, Repr

/-- `openConfirmDialog`: records the order id and resets the estimated
preparation time to the default of 30 minutes. -/
def openConfirmDialog (orderId : Int) : ConfirmDialogState :=
  { confirmingOrderId := some orderId, estimatedTime := 30 }

/-- `handleConfirmWithTime`: guarded by the JS falsy check
`if (!confirmingOrderId) return`, then sends one request carrying status
`confirmed` together with the current estimated-time value. -/
def handleConfirmWithTime (state : ConfirmDialogState) :
    Option StatusUpdateRequest :=
  match state.confirmingOrderId with
  | none => none
  | some orderId =>
      if orderId = 0 then none
      else some { orderId := orderId
                  body := updateStatusBody OrderStatus.confirmed (some state.estimatedTime) }

end OrdersPage

namespace DetailsPage

/-- The status-action buttons rendered on the order details page
(src/unnamed/part_004, first component): same transition structure as the
orders list page; delivered and cancelled only show a completion note. -/
def availableStatusActions : OrderStatus → List OrderStatus
  | OrderStatus.pending => [OrderStatus.confirmed, OrderStatus.cancelled]
  | OrderStatus.confirmed => [OrderStatus.preparing]
  | OrderStatus.preparing => [OrderStatus.ready]
  | OrderStatus.ready => [OrderStatus.delivered]
  | OrderStatus.delivered => []
  | OrderStatus.cancelled => []

/-- `handleUpdateStatus` on the order details page: one status-only
request for the displayed order; on success only the status field of the
held order changes; on failure the held order is untouched and an error
notice is raised, with no retry. -/
def handleUpdateStatus (order : Order) (newStatus : OrderStatus)
    (outcome : Except ApiError Order) :
    List StatusUpdateRequest × Order × Toast :=
  ([{ orderId := order.id, body := updateStatusBody newStatus none }],
    match outcome with
    | Except.ok _ => ({ order with status := newStatus }, Toast.successToast)
    | Except.error _ => (order, Toast.errorToast))

end DetailsPage

/-! ### Voice webhook (src/twilio_webhook.js) -/

namespace Webhook

/-- The form-encoded fields the handler reads from a Twilio request. -/
structure WebhookRequestBody where
  From : Option String
  Caller : Option String
  To : Option String
  Called : Option String
deriving DecidableEq, Repr

/-- JS `a || b` on optional strings: an absent or empty (falsy) left
operand falls back to the right operand. -/
def jsOrString (a b : Option String) : Option String :=
  match a with
  | some s => if s = "" then b else some s
  | none => b

/-- The arguments passed to `client.call.registerPhoneCall`. -/
structure RegisterPhoneCallArgs where
  direction : String
  from_number : Option String
  to_number : Option String
deriving DecidableEq, Repr

/-- The third-party response; only `call_id` is consumed. -/
structure PhoneCallResponse where
  call_id : String
deriving DecidableEq, Repr

/-- The two possible HTTP responses of the handler: routing markup whose
dial target is a SIP address, or a 500 error. -/
inductive WebhookHttpResponse where
  | xmlDial (contentType : String) (dialSip : String)
  | serverError (statusCode : Nat) (body : String)
deriving DecidableEq, Repr

/-- `POST /voice-webhook`: extracts caller and callee with the
From-or-Caller and To-or-Called fallbacks, registers the call (outcome
passed in), and answers with dial markup targeting
`sip:<call_id>@5t4n6j0wnrl.sip.livekit.cloud` on success or status 500 on
any registration error. -/
def voiceWebhook (body : WebhookRequestBody)
    (registerOutcome : Except ApiError PhoneCallResponse) :
    RegisterPhoneCallArgs × WebhookHttpResponse :=
  let fromNumber := jsOrString body.From body.Caller
  let toNumber := jsOrString body.To body.Called
  let args : RegisterPhoneCallArgs :=
    { direction := "inbound", from_number := fromNumber, to_number := toNumber }
  match registerOutcome with
  | Except.ok resp =>
      (args, WebhookHttpResponse.xmlDial "text/xml"
        ("sip:" ++ resp.call_id ++ "@5t4n6j0wnrl.sip.livekit.cloud"))
  | Except.error _ =>
      (args, WebhookHttpResponse.serverError 500 "Internal Server Error")

end Webhook

/-! ### Order normalization at the API client
(src/frontend/src/lib/api/api-service.ts, `normalizeOrder` / `orderApi.getAll`);
the dynamically-typed server payloads are modelled as JSON-like values,
with `undef` for the JS `undefined` value and `nan` for the number NaN. -/

inductive Json where
  | null
  | undef
  | nan
  | bool (b : Bool)
  | num (n : ℚ)
  | str (s : String)
  | arr (elems : List Json)
  | obj (fields : List (String × Json))
deriving BEq, Repr

/-- A thrown JS TypeError. -/
inductive JsError where
  | typeError (msg : String)
deriving DecidableEq, Repr

/-- JS nullish test: only `null` and `undefined` are nullish. -/
def isNullish : Json → Bool
  | Json.null => true
  | Json.undef => true
  | _ => false

/-- JS property access `v.field`: throws a TypeError on null or undefined,
yields the named field or undefined on an object, and undefined on every
other value. -/
def jsGet (v : Json) (field : String) : Except JsError Json :=
  match v with
  | Json.null => Except.error (JsError.typeError "Cannot read properties of null")
  | Json.undef => Except.error (JsError.typeError "Cannot read properties of undefined")
  | Json.obj fields =>
      match fields.find? (fun p => p.1 == field) with
      | some p => Except.ok p.2
      | none => Except.ok Json.undef
  | _ => Except.ok Json.undef

/-- JS nullish coalescing `a ?? b` on computed values. -/
def jsNullish (a b : Json) : Json :=
  if isNullish a then b else a

/-- JS ToNumber on the values of this model: numbers, booleans and null
convert; `undefined` and NaN do not; a string converts when it trims to
empty (0) or to an integer literal; arrays and objects are treated as
non-convertible. -/
def jsToNumber : Json → Option ℚ
  | Json.num n => some n
  | Json.bool true => some 1
  | Json.bool false => some 0
  | Json.null => some 0
  | Json.str s => if s.trim = "" then some 0 else (s.trim.toInt?).map (fun n => (n : ℚ))
  | _ => none

/-- JS multiplication: a number when both operands convert, NaN
otherwise. -/
def jsMul (a b : Json) : Json :=
  match jsToNumber a, jsToNumber b with
  | some x, some y => Json.num (x * y)
  | _, _ => Json.nan

/-- JS object spread-with-override `\x7b ...base, field: value \x7d`: on an
object the field is (re)bound, on any other spreadable value the result
holds only the new field. -/
def jsSpreadSet (base : Json) (field : String) (value : Json) : Json :=
  match base with
  | Json.obj fields =>
      Json.obj ((fields.filter (fun p => p.1 != field)) ++ [(field, value)])
  | _ => Json.obj [(field, value)]

/-- The per-add-on arm of the `add_ons` map inside `normalizeOrder`: a bare
string becomes a record with null id and price 0; otherwise the id, name
and price fields are read with their fallbacks (throwing on a nullish
add-on value). -/
def standardizeAddOn (ao : Json) : Except JsError Json :=
  match ao with
  | Json.str s =>
      Except.ok (Json.obj
        [("add_on_id", Json.null), ("add_on_name", Json.str s), ("price", Json.num 0)])
  | _ => do
      let idRaw ← jsGet ao "add_on_id"
      let idAlt ← jsGet ao "id"
      let nameRaw ← jsGet ao "add_on_name"
      let nameAlt ← jsGet ao "name"
      let priceRaw ← jsGet ao "price"
      Except.ok (Json.obj
        [("add_on_id", jsNullish idRaw (jsNullish idAlt Json.null)),
         ("add_on_name", jsNullish nameRaw (jsNullish nameAlt (Json.str ""))),
         ("price", jsNullish priceRaw (Json.num 0))])

/-- The per-item arm of the `items.map` inside `normalizeOrder`: reads each
field with its fallback, defaults a missing `total_price` to
quantity × base_price, and maps the add-ons (throwing a TypeError when
`add_ons` is a non-nullish non-array, as `.map` does in JS). -/
def standardizeItem (item : Json) : Except JsError Json := do
  let idRaw ← jsGet item "menu_item_id"
  let idAlt ← jsGet item "id"
  let menu_item_id := jsNullish idRaw (jsNullish idAlt Json.null)
  let nameRaw ← jsGet item "menu_item_name"
  let nameAlt ← jsGet item "item_name"
  let menu_item_name := jsNullish nameRaw (jsNullish nameAlt (Json.str ""))
  let qRaw ← jsGet item "quantity"
  let quantity := jsNullish qRaw (Json.num 0)
  let bpRaw ← jsGet item "base_price"
  let bpAlt ← jsGet item "price"
  let base_price := jsNullish bpRaw (jsNullish bpAlt (Json.num 0))
  let tpRaw ← jsGet item "total_price"
  let total_price := jsNullish tpRaw (jsMul quantity base_price)
  let addOnsRaw ← jsGet item "add_ons"
  let add_ons ←
    match jsNullish addOnsRaw (Json.arr []) with
    | Json.arr xs => xs.mapM standardizeAddOn
    | _ => Except.error (JsError.typeError "add_ons.map is not a function")
  Except.ok (Json.obj
    [("menu_item_id", menu_item_id),
     ("menu_item_name", menu_item_name),
     ("quantity", quantity),
     ("base_price", base_price),
     ("total_price", total_price),
     ("add_ons", Json.arr add_ons)])

/-- `normalizeOrder`: reads `order_items` (throwing on a nullish order), a
string value is parsed through the host JSON parser (passed in as
`parse`; `none` models a parse exception, mapped to the empty list), any
non-array result becomes the empty list, each item is standardized, and
the result replaces `order_items` on the original payload. -/
def normalizeOrder (parse : String → Option Json) (order : Json) :
    Except JsError Json := do
  let itemsRaw ← jsGet order "order_items"
  let items :=
    match itemsRaw with
    | Json.str s =>
        match parse s with
        | some v => v
        | none => Json.arr []
    | other => other
  let itemsArray :=
    match items with
    | Json.arr xs => xs
    | _ => []
  let standardized ← itemsArray.mapM standardizeItem
  Except.ok (jsSpreadSet order "order_items" (Json.arr standardized))

/-- `orderApi.getAll`: a non-array response body yields the empty list;
an array is normalized element-wise, propagating any thrown error. -/
def getAllOrders (parse : String → Option Json) (responseData : Json) :
    Except JsError (List Json) :=
  match responseData with
  | Json.arr orders => orders.mapM (normalizeOrder parse)
  | _ => Except.ok []

/-! ### Shared lemmas -/

theorem totalAmount_eq_sum (l : List OrderItem) :
    CreatePage.totalAmount l = (l.map OrderItem.total_price).sum := by
  have h : ∀ (l : List OrderItem) (a : ℚ),
      l.foldl (fun total item => total + item.total_price) a
        = a + (l.map OrderItem.total_price).sum := by
    intro l
    induction l with
    | nil => intro a; simp
    | cons x xs ih => intro a; simp [List.foldl, ih, add_assoc]
  simpa [CreatePage.totalAmount] using h l 0

theorem addonsTotal_eq_sum (l : List AddOnSelection) :
    CreatePage.addonsTotal l = (l.map AddOnSelection.price).sum := by
  have h : ∀ (l : List AddOnSelection) (a : ℚ),
      l.foldl (fun sum ao => sum + ao.price) a
        = a + (l.map AddOnSelection.price).sum := by
    intro l
    induction l with
    | nil => intro a; simp
    | cons x xs ih => intro a; simp [List.foldl, ih, add_assoc]
  simpa [CreatePage.addonsTotal] using h l 0

/-! ### C5: order total equals the sum of line totals -/

/-- C5. For every order in the order builder, `total_amount` (computed by
the `totalAmount` reduce) always equals the sum of its line items'
`total_price`, after any item addition, removal, quantity change, or
add-on change — in both builder variants. -/
theorem C5_total_amount (items : List OrderItem) (m mi : MenuItem) (i : Nat)
    (q mq : Int) (ao : AddOn) (maos : List AddOn) (sel : List AddOnSelection) :
    CreatePage.totalAmount (CreatePage.handleAddItem items m)
        = ((CreatePage.handleAddItem items m).map OrderItem.total_price).sum
    ∧ CreatePage.totalAmount (CreatePage.handleRemoveItem items i)
        = ((CreatePage.handleRemoveItem items i).map OrderItem.total_price).sum
    ∧ CreatePage.totalAmount (CreatePage.handleUpdateQuantity items i q)
        = ((CreatePage.handleUpdateQuantity items i q).map OrderItem.total_price).sum
    ∧ CreatePage.totalAmount (CreatePage.toggleAddOn items i ao)
        = ((CreatePage.toggleAddOn items i ao).map OrderItem.total_price).sum
    ∧ CreatePage.totalAmount (CreatePage.addModalItemToOrder items mi mq maos)
        = ((CreatePage.addModalItemToOrder items mi mq maos).map OrderItem.total_price).sum
    ∧ CreatePage.totalAmount (VariantPage.handleAddItem items mi)
        = ((VariantPage.handleAddItem items mi).map OrderItem.total_price).sum
    ∧ CreatePage.totalAmount (VariantPage.handleUpdateQuantity items i q)
        = ((VariantPage.handleUpdateQuantity items i q).map OrderItem.total_price).sum
    ∧ CreatePage.totalAmount (VariantPage.confirmAddOns items i sel)
        = ((VariantPage.confirmAddOns items i sel).map OrderItem.total_price).sum :=
  ⟨totalAmount_eq_sum _, totalAmount_eq_sum _, totalAmount_eq_sum _,
   totalAmount_eq_sum _, totalAmount_eq_sum _, totalAmount_eq_sum _,
   totalAmount_eq_sum _, totalAmount_eq_sum _⟩

/-! ### C3: exposed status transitions -/

/-- C3. The status-update operations exposed by the orders list page and
the order details page offer no transition out of `delivered` or
`cancelled`, never offer `pending → preparing`, and jointly expose exactly
the transitions pending→confirmed, pending→cancelled, confirmed→preparing,
preparing→ready and ready→delivered. -/
theorem C3_status_transitions :
    (OrdersPage.availableStatusActions OrderStatus.delivered = []
      ∧ OrdersPage.availableStatusActions OrderStatus.cancelled = []
      ∧ DetailsPage.availableStatusActions OrderStatus.delivered = []
      ∧ DetailsPage.availableStatusActions OrderStatus.cancelled = [])
    ∧ (OrderStatus.preparing ∉ OrdersPage.availableStatusActions OrderStatus.pending
      ∧ OrderStatus.preparing ∉ DetailsPage.availableStatusActions OrderStatus.pending)
    ∧ (∀ s t : OrderStatus,
        (t ∈ OrdersPage.availableStatusActions s ∨ t ∈ DetailsPage.availableStatusActions s)
          ↔ (s, t) ∈ ([(OrderStatus.pending, OrderStatus.confirmed),
              (OrderStatus.pending, OrderStatus.cancelled),
              (OrderStatus.confirmed, OrderStatus.preparing),
              (OrderStatus.preparing, OrderStatus.ready),
              (OrderStatus.ready, OrderStatus.delivered)] :
                List (OrderStatus × OrderStatus))) := by
  decide

/-! ### C4: a failed status update leaves the view state intact -/

/-- C4. When a status-update request fails, both order views keep their
in-memory order state exactly as it was, raise a user-visible error
notice, and issue no retry (exactly one request was sent). -/
theorem C4_failure_leaves_state (orders : List Order) (orderId : Int)
    (newStatus : OrderStatus) (e : ApiError) (order : Order) :
    OrdersPage.handleUpdateStatus orders orderId newStatus (Except.error e)
      = ([{ orderId := orderId, body := updateStatusBody newStatus none }],
          orders, Toast.errorToast)
    ∧ DetailsPage.handleUpdateStatus order newStatus (Except.error e)
      = ([{ orderId := order.id, body := updateStatusBody newStatus none }],
          order, Toast.errorToast) :=
  ⟨rfl, rfl⟩

/-! ### C6: confirming without a time sends the 30-minute default -/

/-- C6. Opening the confirm dialog resets the estimated preparation time
to 30; confirming without touching it sends one pending→confirmed request
carrying `estimated_preparation_time = 30`. (The handler's JS falsy guard
skips order id 0.) -/
theorem C6_default_prep_time (orderId : Int) (h : orderId ≠ 0) :
    OrdersPage.handleConfirmWithTime (OrdersPage.openConfirmDialog orderId)
      = some { orderId := orderId
               body := updateStatusBody OrderStatus.confirmed (some 30) } := by
  simp [OrdersPage.handleConfirmWithTime, OrdersPage.openConfirmDialog, h]

theorem C6_default_prep_time_witness :
    OrdersPage.handleConfirmWithTime (OrdersPage.openConfirmDialog 7)
      = some { orderId := 7
               body := updateStatusBody OrderStatus.confirmed (some 30) } :=
  C6_default_prep_time 7 (by decide)

/-! ### C7: successful status update touches only the status field -/

/-- The frame relation of one status-only update: every field except
`status` is unchanged, the matching order gets the new status, every
other order keeps its old status. -/
def statusOnlyUpdated (orderId : Int) (newStatus : OrderStatus)
    (o o' : Order) : Prop :=
  o'.id = o.id ∧ o'.customer_id = o.customer_id
    ∧ o'.customer_name = o.customer_name ∧ o'.customer_phone = o.customer_phone
    ∧ o'.order_items = o.order_items ∧ o'.total_amount = o.total_amount
    ∧ o'.estimated_preparation_time = o.estimated_preparation_time
    ∧ o'.payment_method = o.payment_method
    ∧ o'.special_instructions = o.special_instructions
    ∧ o'.created_at = o.created_at ∧ o'.updated_at = o.updated_at
    ∧ (o.id = orderId → o'.status = newStatus)
    ∧ (o.id ≠ orderId → o'.status = o.status)

/-- C7. A successful status-only update sends exactly one request whose
body carries the status and omits `estimated_preparation_time`, and the
resulting in-memory list is the old list with only the status field of
the order(s) with the given id changed. -/
theorem C7_status_update_frame (orders : List Order) (orderId : Int)
    (newStatus : OrderStatus) (resp : Order) :
    (OrdersPage.handleUpdateStatus orders orderId newStatus (Except.ok resp)).1
      = [{ orderId := orderId
           body := { status := newStatus, estimated_preparation_time := none } }]
    ∧ List.Forall₂ (statusOnlyUpdated orderId newStatus) orders
        (OrdersPage.handleUpdateStatus orders orderId newStatus (Except.ok resp)).2.1 := by
  refine ⟨rfl, ?_⟩
  show List.Forall₂ _ orders (orders.map _)
  induction orders with
  | nil => exact List.Forall₂.nil
  | cons o os ih =>
    refine List.Forall₂.cons ?_ ih
    by_cases h : o.id = orderId <;> simp [statusOnlyUpdated, h]

/-! ### C8: voice webhook -/

theorem jsOrString_spec (a b : Option String) :
    Webhook.jsOrString a b = if a = none ∨ a = some "" then b else a := by
  cases a with
  | none => simp [Webhook.jsOrString]
  | some s => by_cases hs : s = "" <;> simp [Webhook.jsOrString, hs]

/-- C8. The voice webhook takes the caller from `From` falling back to
`Caller` and the callee from `To` falling back to `Called`; on a
successful registration it answers with dial markup targeting the SIP
address built from the returned call id, and on any registration error it
answers with status 500. -/
theorem C8_voice_webhook (body : Webhook.WebhookRequestBody)
    (r : Webhook.PhoneCallResponse) (e : ApiError)
    (outcome : Except ApiError Webhook.PhoneCallResponse) :
    (Webhook.voiceWebhook body (Except.ok r)).2
      = Webhook.WebhookHttpResponse.xmlDial "text/xml"
          ("sip:" ++ r.call_id ++ "@5t4n6j0wnrl.sip.livekit.cloud")
    ∧ (Webhook.voiceWebhook body (Except.error e)).2
      = Webhook.WebhookHttpResponse.serverError 500 "Internal Server Error"
    ∧ (Webhook.voiceWebhook body outcome).1
      = { direction := "inbound"
          from_number := Webhook.jsOrString body.From body.Caller
          to_number := Webhook.jsOrString body.To body.Called }
    ∧ Webhook.jsOrString body.From body.Caller
      = (if body.From = none ∨ body.From = some "" then body.Caller else body.From)
    ∧ Webhook.jsOrString body.To body.Called
      = (if body.To = none ∨ body.To = some "" then body.Called else body.To) := by
  refine ⟨rfl, rfl, ?_, jsOrString_spec _ _, jsOrString_spec _ _⟩
  cases outcome <;> rfl

/-! ### C2: phone normalization and validation -/

theorem digitsOnly_all_digits (l : List Char)
    (h : ∀ c ∈ l, c.isDigit = true) : CreatePage.digitsOnly l = l :=
  List.filter_eq_self.mpr h

theorem mem_digitsOnly_isDigit (v : List Char) :
    ∀ c ∈ CreatePage.digitsOnly v, c.isDigit = true := by
  intro c hc
  exact (List.mem_filter.mp hc).2

/-- The phone field state, produced by the input formatter, always strips
back to the first ten digits of what was typed. -/
theorem digitsOnly_formatPhone (v : List Char) :
    CreatePage.digitsOnly (CreatePage.formatPhone v)
      = (CreatePage.digitsOnly v).take 10 := by
  have hall := mem_digitsOnly_isDigit v
  have hsub : ∀ (l : List Char), l ⊆ CreatePage.digitsOnly v →
      CreatePage.digitsOnly l = l :=
    fun l hl => digitsOnly_all_digits l (fun c hc => hall c (hl hc))
  by_cases h3 : (CreatePage.digitsOnly v).length ≤ 3
  · have hf : CreatePage.formatPhone v = CreatePage.digitsOnly v := by
      simp [CreatePage.formatPhone, h3]
    rw [hf, hsub _ (fun c hc => hc),
      List.take_of_length_le (h3.trans (by norm_num))]
  · by_cases h6 : (CreatePage.digitsOnly v).length ≤ 6
    · have hf : CreatePage.formatPhone v
          = (CreatePage.digitsOnly v).take 3 ++ ['-']
            ++ (CreatePage.digitsOnly v).drop 3 := by
        simp [CreatePage.formatPhone, h3, h6]
      rw [hf, show ∀ a b c : List Char,
          CreatePage.digitsOnly (a ++ b ++ c)
            = CreatePage.digitsOnly a ++ CreatePage.digitsOnly b
              ++ CreatePage.digitsOnly c from by
        intro a b c; simp [CreatePage.digitsOnly, List.filter_append]]
      rw [hsub _ (List.take_subset _ _), hsub _ (List.drop_subset _ _),
        show CreatePage.digitsOnly ['-'] = [] from rfl]
      rw [List.append_nil, List.take_append_drop,
        List.take_of_length_le (h6.trans (by norm_num))]
    · have hf : CreatePage.formatPhone v
          = (CreatePage.digitsOnly v).take 3 ++ ['-']
            ++ ((CreatePage.digitsOnly v).drop 3).take 3 ++ ['-']
            ++ ((CreatePage.digitsOnly v).drop 6).take 4 := by
        simp [CreatePage.formatPhone, h3, h6]
      rw [hf, show ∀ a b c d2 e : List Char,
          CreatePage.digitsOnly (a ++ b ++ c ++ d2 ++ e)
            = CreatePage.digitsOnly a ++ CreatePage.digitsOnly b
              ++ CreatePage.digitsOnly c ++ CreatePage.digitsOnly d2
              ++ CreatePage.digitsOnly e from by
        intro a b c d2 e; simp [CreatePage.digitsOnly, List.filter_append]]
      rw [hsub _ (List.take_subset _ _),
        hsub _ (fun c hc => List.drop_subset _ _ (List.take_subset _ _ hc)),
        hsub _ (fun c hc => List.drop_subset _ _ (List.take_subset _ _ hc)),
        show CreatePage.digitsOnly ['-'] = [] from rfl]
      simp only [List.append_nil]
      have e1 : (CreatePage.digitsOnly v).take 10
          = (CreatePage.digitsOnly v).take 3
            ++ ((CreatePage.digitsOnly v).drop 3).take 7 := by
        have h := List.take_add (CreatePage.digitsOnly v) 3 7
        norm_num at h
        exact h
      have e2 : ((CreatePage.digitsOnly v).drop 3).take 7
          = ((CreatePage.digitsOnly v).drop 3).take 3
            ++ ((CreatePage.digitsOnly v).drop 6).take 4 := by
        have h := List.take_add ((CreatePage.digitsOnly v).drop 3) 3 4
        norm_num at h
        exact h
      rw [e1, e2, List.append_assoc]

theorem digitsOnly_formatPhone_length_le (v : List Char) :
    (CreatePage.digitsOnly (CreatePage.formatPhone v)).length ≤ 10 := by
  rw [digitsOnly_formatPhone, List.length_take]
  exact min_le_left _ _

/-- C2. With a valid name and a non-empty cart, order submission accepts
exactly when the phone field (as produced by the input formatter from any
typed value) strips to exactly ten digits; an accepted request carries the
digits-only phone, and a rejected submission yields the phone validation
error and builds no create request. -/
theorem C2_phone_validation (raw : List Char) (name : String)
    (items : List OrderItem) (instr : String)
    (hname : CreatePage.jsTrim name ≠ "") (hitems : items ≠ []) :
    ((CreatePage.handleCreateOrder name (CreatePage.formatPhone raw) items instr).isOk
        = true
      ↔ (CreatePage.digitsOnly (CreatePage.formatPhone raw)).length = 10)
    ∧ (∀ req, CreatePage.handleCreateOrder name (CreatePage.formatPhone raw) items instr
          = Except.ok req →
        req.customer_phone = CreatePage.digitsOnly (CreatePage.formatPhone raw))
    ∧ ((CreatePage.digitsOnly (CreatePage.formatPhone raw)).length ≠ 10 →
        CreatePage.handleCreateOrder name (CreatePage.formatPhone raw) items instr
          = Except.error CreatePage.ValidationError.invalidPhone) := by
  have hle := digitsOnly_formatPhone_length_le raw
  by_cases hlen : (CreatePage.digitsOnly (CreatePage.formatPhone raw)).length < 10
  · have heq : CreatePage.handleCreateOrder name (CreatePage.formatPhone raw) items instr
        = Except.error CreatePage.ValidationError.invalidPhone := by
      unfold CreatePage.handleCreateOrder CreatePage.validateOrderData
      rw [if_neg hname, if_pos hlen]
    refine ⟨?_, ?_, fun _ => heq⟩
    · rw [heq]
      simp only [Except.isOk]
      constructor
      · intro h; cases h
      · intro h; omega
    · intro req hreq
      rw [heq] at hreq
      cases hreq
  · have h10 : (CreatePage.digitsOnly (CreatePage.formatPhone raw)).length = 10 := by
      omega
    have heq : CreatePage.handleCreateOrder name (CreatePage.formatPhone raw) items instr
        = Except.ok
            { customer_name := name
              customer_phone := CreatePage.digitsOnly (CreatePage.formatPhone raw)
              order_items := items
              total_amount := CreatePage.totalAmount items
              special_instructions := if instr = "" then none else some instr } := by
      unfold CreatePage.handleCreateOrder CreatePage.validateOrderData
      rw [if_neg hname, if_neg hlen, if_neg hitems]
    refine ⟨?_, ?_, fun hc => absurd h10 hc⟩
    · rw [heq]
      simp only [Except.isOk]
      exact ⟨fun _ => h10, fun _ => rfl⟩
    · intro req hreq
      rw [heq] at hreq
      simp only [Except.ok.injEq] at hreq
      rw [← hreq]

theorem C2_phone_validation_witness :
    (CreatePage.handleCreateOrder "Bob"
        (CreatePage.formatPhone "555-123-4567".toList)
        [{ menu_item_id := 1, menu_item_name := "Burger", quantity := 1,
           base_price := 8, add_ons := [], total_price := 8 }] "").isOk = true
    ∧ CreatePage.handleCreateOrder "Bob"
        (CreatePage.formatPhone "555-123".toList)
        [{ menu_item_id := 1, menu_item_name := "Burger", quantity := 1,
           base_price := 8, add_ons := [], total_price := 8 }] ""
        = Except.error CreatePage.ValidationError.invalidPhone := by
  constructor
  · exact (C2_phone_validation "555-123-4567".toList "Bob"
      [{ menu_item_id := 1, menu_item_name := "Burger", quantity := 1,
         base_price := 8, add_ons := [], total_price := 8 }] ""
      (by decide) (by decide)).1.mpr (by decide)
  · exact (C2_phone_validation "555-123".toList "Bob"
      [{ menu_item_id := 1, menu_item_name := "Burger", quantity := 1,
         base_price := 8, add_ons := [], total_price := 8 }] ""
      (by decide) (by decide)).2.2 (by decide)

/-! ### C9: cart quantities stay at least 1 -/

theorem eraseIdx_quantity_ge (l : List OrderItem) (j : Nat)
    (h : ∀ it ∈ l, 1 ≤ it.quantity) : ∀ it ∈ l.eraseIdx j, 1 ≤ it.quantity :=
  fun it hit => h it ((List.eraseIdx_sublist l j).subset hit)

/-- C9. Starting from a cart whose lines all have quantity ≥ 1, every cart
operation of both builder variants keeps every quantity ≥ 1: a requested
quantity ≤ 0 removes the line instead of storing it, and the add-item
modal's quantity controls never go below 1. -/
theorem C9_quantity_invariant (items : List OrderItem) (m mi : MenuItem)
    (i : Nat) (q mq : Int) (ao : AddOn) (maos : List AddOn)
    (sel : List AddOnSelection)
    (hinv : ∀ it ∈ items, 1 ≤ it.quantity) :
    (∀ it ∈ CreatePage.handleAddItem items m, 1 ≤ it.quantity)
    ∧ (∀ it ∈ CreatePage.handleRemoveItem items i, 1 ≤ it.quantity)
    ∧ (∀ it ∈ CreatePage.handleUpdateQuantity items i q, 1 ≤ it.quantity)
    ∧ (∀ it ∈ CreatePage.toggleAddOn items i ao, 1 ≤ it.quantity)
    ∧ (1 ≤ mq → ∀ it ∈ CreatePage.addModalItemToOrder items mi mq maos, 1 ≤ it.quantity)
    ∧ 1 ≤ CreatePage.modalQuantityInit
    ∧ 1 ≤ CreatePage.modalQuantityDec mq
    ∧ (1 ≤ mq → 1 ≤ CreatePage.modalQuantityInc mq)
    ∧ (∀ it ∈ VariantPage.handleAddItem items mi, 1 ≤ it.quantity)
    ∧ (∀ it ∈ VariantPage.handleUpdateQuantity items i q, 1 ≤ it.quantity)
    ∧ (∀ it ∈ VariantPage.confirmAddOns items i sel, 1 ≤ it.quantity) := by
  refine ⟨?_, ?_, ?_, ?_, ?_, ?_, ?_, ?_, ?_, ?_, ?_⟩
  · unfold CreatePage.handleAddItem
    cases hidx : items.findIdx? (fun item => item.menu_item_id == m.id) with
    | some k =>
      intro it hit
      rcases listModify_mem _ k items it hit with h | ⟨y, hy, rfl⟩
      · exact hinv it h
      · have := hinv y hy
        show (1 : Int) ≤ y.quantity + 1
        omega
    | none =>
      intro it hit
      rcases List.mem_append.mp hit with h | h
      · exact hinv it h
      · rcases List.mem_singleton.mp h with rfl
        exact le_refl 1
  · exact eraseIdx_quantity_ge items i hinv
  · unfold CreatePage.handleUpdateQuantity
    by_cases hq : q ≤ 0
    · rw [if_pos hq]
      exact eraseIdx_quantity_ge items i hinv
    · rw [if_neg hq]
      intro it hit
      rcases listModify_mem _ i items it hit with h | ⟨y, hy, rfl⟩
      · exact hinv it h
      · show (1 : Int) ≤ q
        omega
  · intro it hit
    rcases listModify_mem _ i items it hit with h | ⟨y, hy, rfl⟩
    · exact hinv it h
    · exact hinv y hy
  · intro hmq it hit
    rcases List.mem_append.mp hit with h | h
    · exact hinv it h
    · rcases List.mem_singleton.mp h with rfl
      exact hmq
  · exact le_refl 1
  · exact le_max_left 1 (mq - 1)
  · intro hmq
    show (1 : Int) ≤ mq + 1
    omega
  · intro it hit
    rcases List.mem_append.mp hit with h | h
    · exact hinv it h
    · rcases List.mem_singleton.mp h with rfl
      exact le_refl 1
  · unfold VariantPage.handleUpdateQuantity
    by_cases hq : q ≤ 0
    · rw [if_pos hq]
      exact eraseIdx_quantity_ge items i hinv
    · rw [if_neg hq]
      intro it hit
      rcases listModify_mem _ i items it hit with h | ⟨y, hy, rfl⟩
      · exact hinv it h
      · show (1 : Int) ≤ q
        omega
  · intro it hit
    rcases listModify_mem _ i items it hit with h | ⟨y, hy, rfl⟩
    · exact hinv it h
    · exact hinv y hy

theorem C9_quantity_invariant_witness :
    (1 : Int) ≤ ({ menu_item_id := 1, menu_item_name := "Burger", quantity := 3,
                   base_price := 8, add_ons := [],
                   total_price := ((3 : Int) : ℚ) * 8 + CreatePage.addonsTotal [] } :
        OrderItem).quantity
    ∧ (1 : Int) ≤ ({ menu_item_id := 2, menu_item_name := "Fries", quantity := 2,
                     base_price := 3, add_ons := [],
                     total_price := ((2 : Int) : ℚ) * 3
                       + ([] : List AddOn).foldl (fun sum ao => sum + ao.price) 0 } :
        OrderItem).quantity := by
  constructor
  · exact (C9_quantity_invariant
      [{ menu_item_id := 1, menu_item_name := "Burger", quantity := 1,
         base_price := 8, add_ons := [], total_price := 8 }]
      { id := 1, name := "Burger", category := "mains", base_price := 8,
        description := none, is_available := true }
      { id := 2, name := "Fries", category := "sides", base_price := 3,
        description := none, is_available := true }
      0 3 2
      { id := 9, name := "Bacon", price := 3, category := "mains",
        type := none, is_available := true }
      [] [] (by decide)).2.2.1
      { menu_item_id := 1, menu_item_name := "Burger", quantity := 3,
        base_price := 8, add_ons := [],
        total_price := ((3 : Int) : ℚ) * 8 + CreatePage.addonsTotal [] }
      (List.mem_singleton_self _)
  · exact (C9_quantity_invariant
      [{ menu_item_id := 1, menu_item_name := "Burger", quantity := 1,
         base_price := 8, add_ons := [], total_price := 8 }]
      { id := 1, name := "Burger", category := "mains", base_price := 8,
        description := none, is_available := true }
      { id := 2, name := "Fries", category := "sides", base_price := 3,
        description := none, is_available := true }
      0 3 2
      { id := 9, name := "Bacon", price := 3, category := "mains",
        type := none, is_available := true }
      [] [] (by decide)).2.2.2.2.1 (by decide)
      { menu_item_id := 2, menu_item_name := "Fries", quantity := 2,
        base_price := 3, add_ons := [],
        total_price := ((2 : Int) : ℚ) * 3
          + ([] : List AddOn).foldl (fun sum ao => sum + ao.price) 0 }
      (List.mem_cons_of_mem _ (List.mem_singleton_self _))

/-! ### C1: line-item total price formula -/

/-- C1 counterexample. A quantity update on the main create page with one
attached add-on (base 8, add-on 2, new quantity 2) yields
total_price = 2 × 8 + 2 = 18, not the claimed
quantity × (base_price + Σ add-on prices) = 2 × (8 + 2) = 20. -/
theorem C1_total_price_counterexample :
    CreatePage.handleUpdateQuantity
        [{ menu_item_id := 1, menu_item_name := "Burger", quantity := 1,
           base_price := 8,
           add_ons := [{ add_on_id := 5, add_on_name := "Cheese", price := 2 }],
           total_price := 10 }] 0 2
      = [{ menu_item_id := 1, menu_item_name := "Burger", quantity := 2,
           base_price := 8,
           add_ons := [{ add_on_id := 5, add_on_name := "Cheese", price := 2 }],
           total_price := 18 }]
    ∧ ¬ ((18 : ℚ) = ((2 : Int) : ℚ)
          * (8 + CreatePage.addonsTotal
              [{ add_on_id := 5, add_on_name := "Cheese", price := 2 }])) := by
  constructor
  · norm_num [CreatePage.handleUpdateQuantity, listModify, CreatePage.addonsTotal,
      CreatePage.handleRemoveItem]
  · norm_num [CreatePage.addonsTotal]

/-- C1 (amended). After a quantity or add-on mutation, the line's
total_price follows the per-operation formula actually implemented: the
main create page's quantity update, add-on toggle and modal add give
quantity × base_price + Σ add-on prices with the add-on subtotal counted
once; the variant page's quantity update gives quantity × base_price,
dropping the add-ons; only the variant page's add-on confirmation gives
quantity × (base_price + Σ add-on prices). -/
theorem C1_total_price_amended (items : List OrderItem) (i : Nat) (q : Int)
    (ao : AddOn) (mi : MenuItem) (maos : List AddOn)
    (sel : List AddOnSelection) (it₁ it₂ it₃ it₄ it₅ : OrderItem) :
    (1 ≤ q → (CreatePage.handleUpdateQuantity items i q).get? i = some it₁ →
      it₁.total_price
        = (it₁.quantity : ℚ) * it₁.base_price + CreatePage.addonsTotal it₁.add_ons)
    ∧ ((CreatePage.toggleAddOn items i ao).get? i = some it₂ →
      it₂.total_price
        = (it₂.quantity : ℚ) * it₂.base_price + CreatePage.addonsTotal it₂.add_ons)
    ∧ ((CreatePage.addModalItemToOrder items mi q maos).get? items.length = some it₅ →
      it₅.total_price
        = (it₅.quantity : ℚ) * it₅.base_price + CreatePage.addonsTotal it₅.add_ons)
    ∧ (1 ≤ q → (VariantPage.handleUpdateQuantity items i q).get? i = some it₃ →
      it₃.total_price = (it₃.quantity : ℚ) * it₃.base_price)
    ∧ ((VariantPage.confirmAddOns items i sel).get? i = some it₄ →
      it₄.total_price
        = (it₄.quantity : ℚ) * (it₄.base_price + CreatePage.addonsTotal it₄.add_ons)) := by
  refine ⟨?_, ?_, ?_, ?_, ?_⟩
  · intro hq hget
    unfold CreatePage.handleUpdateQuantity at hget
    rw [if_neg (show ¬ q ≤ 0 by omega), listModify_get?] at hget
    cases hc : items.get? i with
    | none => rw [hc] at hget; cases hget
    | some it₀ =>
      rw [hc] at hget
      simp only [Option.map_some', Option.some.injEq] at hget
      subst hget
      rfl
  · intro hget
    unfold CreatePage.toggleAddOn at hget
    rw [listModify_get?] at hget
    cases hc : items.get? i with
    | none => rw [hc] at hget; cases hget
    | some it₀ =>
      rw [hc] at hget
      simp only [Option.map_some', Option.some.injEq] at hget
      subst hget
      rfl
  · intro hget
    unfold CreatePage.addModalItemToOrder at hget
    rw [List.get?_concat_length] at hget
    simp only [Option.some.injEq] at hget
    subst hget
    show (q : ℚ) * mi.base_price + maos.foldl (fun sum ao => sum + ao.price) 0
      = (q : ℚ) * mi.base_price
        + CreatePage.addonsTotal (maos.map (fun ao =>
            { add_on_id := ao.id, add_on_name := ao.name, price := ao.price }))
    simp only [CreatePage.addonsTotal, List.foldl_map]
  · intro hq hget
    unfold VariantPage.handleUpdateQuantity at hget
    rw [if_neg (show ¬ q ≤ 0 by omega), listModify_get?] at hget
    cases hc : items.get? i with
    | none => rw [hc] at hget; cases hget
    | some it₀ =>
      rw [hc] at hget
      simp only [Option.map_some', Option.some.injEq] at hget
      subst hget
      rfl
  · intro hget
    simp only [VariantPage.confirmAddOns, listModify_get?] at hget
    cases hc : items.get? i with
    | none => rw [hc] at hget; cases hget
    | some it₀ =>
      rw [hc] at hget
      simp only [Option.map_some', Option.some.injEq] at hget
      subst hget
      show it₀.base_price * ((it₀.quantity : Int) : ℚ)
          + sel.foldl (fun sum ao => sum + ao.price) 0 * ((it₀.quantity : Int) : ℚ)
        = ((it₀.quantity : Int) : ℚ) * (it₀.base_price + CreatePage.addonsTotal sel)
      simp only [CreatePage.addonsTotal]
      ring

theorem C1_total_price_amended_witness :
    (({ menu_item_id := 1, menu_item_name := "Burger", quantity := 2, base_price := 8,
        add_ons := [{ add_on_id := 5, add_on_name := "Cheese", price := 2 }],
        total_price := ((2 : Int) : ℚ) * 8
          + CreatePage.addonsTotal [{ add_on_id := 5, add_on_name := "Cheese", price := 2 }] } :
        OrderItem).total_price
      = ((2 : Int) : ℚ) * 8
        + CreatePage.addonsTotal [{ add_on_id := 5, add_on_name := "Cheese", price := 2 }])
    ∧ (({ menu_item_id := 1, menu_item_name := "Burger", quantity := 1, base_price := 8,
          add_ons := [{ add_on_id := 5, add_on_name := "Cheese", price := 2 },
                      { add_on_id := 9, add_on_name := "Bacon", price := 3 }],
          total_price := ((1 : Int) : ℚ) * 8
            + CreatePage.addonsTotal
                [{ add_on_id := 5, add_on_name := "Cheese", price := 2 },
                 { add_on_id := 9, add_on_name := "Bacon", price := 3 }] } :
        OrderItem).total_price
      = ((1 : Int) : ℚ) * 8
        + CreatePage.addonsTotal
            [{ add_on_id := 5, add_on_name := "Cheese", price := 2 },
             { add_on_id := 9, add_on_name := "Bacon", price := 3 }])
    ∧ (({ menu_item_id := 1, menu_item_name := "Burger", quantity := 2, base_price := 8,
          add_ons := [{ add_on_id := 5, add_on_name := "Cheese", price := 2 }],
          total_price := ((2 : Int) : ℚ) * 8 } : OrderItem).total_price
      = ((2 : Int) : ℚ) * 8)
    ∧ (({ menu_item_id := 1, menu_item_name := "Burger", quantity := 1, base_price := 8,
          add_ons := [{ add_on_id := 9, add_on_name := "Bacon", price := 3 }],
          total_price := (8 : ℚ) * ((1 : Int) : ℚ)
            + ([{ add_on_id := 9, add_on_name := "Bacon", price := 3 }] :
                List AddOnSelection).foldl (fun sum ao => sum + ao.price) 0
              * ((1 : Int) : ℚ) } : OrderItem).total_price
      = ((1 : Int) : ℚ)
        * (8 + CreatePage.addonsTotal
            [{ add_on_id := 9, add_on_name := "Bacon", price := 3 }])) := by
  refine ⟨?_, ?_, ?_, ?_⟩
  · exact (C1_total_price_amended
      [{ menu_item_id := 1, menu_item_name := "Burger", quantity := 1, base_price := 8,
         add_ons := [{ add_on_id := 5, add_on_name := "Cheese", price := 2 }],
         total_price := 10 }] 0 2
      { id := 9, name := "Bacon", price := 3, category := "mains", type := none,
        is_available := true }
      { id := 2, name := "Fries", category := "sides", base_price := 3,
        description := none, is_available := true }
      [] [{ add_on_id := 9, add_on_name := "Bacon", price := 3 }]
      { menu_item_id := 1, menu_item_name := "Burger", quantity := 2, base_price := 8,
        add_ons := [{ add_on_id := 5, add_on_name := "Cheese", price := 2 }],
        total_price := ((2 : Int) : ℚ) * 8
          + CreatePage.addonsTotal [{ add_on_id := 5, add_on_name := "Cheese", price := 2 }] }
      ⟨0, "", 0, 0, [], 0⟩ ⟨0, "", 0, 0, [], 0⟩ ⟨0, "", 0, 0, [], 0⟩ ⟨0, "", 0, 0, [], 0⟩).1
      (by decide) rfl
  · exact (C1_total_price_amended
      [{ menu_item_id := 1, menu_item_name := "Burger", quantity := 1, base_price := 8,
         add_ons := [{ add_on_id := 5, add_on_name := "Cheese", price := 2 }],
         total_price := 10 }] 0 2
      { id := 9, name := "Bacon", price := 3, category := "mains", type := none,
        is_available := true }
      { id := 2, name := "Fries", category := "sides", base_price := 3,
        description := none, is_available := true }
      [] [{ add_on_id := 9, add_on_name := "Bacon", price := 3 }]
      ⟨0, "", 0, 0, [], 0⟩
      { menu_item_id := 1, menu_item_name := "Burger", quantity := 1, base_price := 8,
        add_ons := [{ add_on_id := 5, add_on_name := "Cheese", price := 2 },
                    { add_on_id := 9, add_on_name := "Bacon", price := 3 }],
        total_price := ((1 : Int) : ℚ) * 8
          + CreatePage.addonsTotal
              [{ add_on_id := 5, add_on_name := "Cheese", price := 2 },
               { add_on_id := 9, add_on_name := "Bacon", price := 3 }] }
      ⟨0, "", 0, 0, [], 0⟩ ⟨0, "", 0, 0, [], 0⟩ ⟨0, "", 0, 0, [], 0⟩).2.1 rfl
  · exact (C1_total_price_amended
      [{ menu_item_id := 1, menu_item_name := "Burger", quantity := 1, base_price := 8,
         add_ons := [{ add_on_id := 5, add_on_name := "Cheese", price := 2 }],
         total_price := 10 }] 0 2
      { id := 9, name := "Bacon", price := 3, category := "mains", type := none,
        is_available := true }
      { id := 2, name := "Fries", category := "sides", base_price := 3,
        description := none, is_available := true }
      [] [{ add_on_id := 9, add_on_name := "Bacon", price := 3 }]
      ⟨0, "", 0, 0, [], 0⟩ ⟨0, "", 0, 0, [], 0⟩
      { menu_item_id := 1, menu_item_name := "Burger", quantity := 2, base_price := 8,
        add_ons := [{ add_on_id := 5, add_on_name := "Cheese", price := 2 }],
        total_price := ((2 : Int) : ℚ) * 8 }
      ⟨0, "", 0, 0, [], 0⟩ ⟨0, "", 0, 0, [], 0⟩).2.2.2.1
      (by decide) rfl
  · exact (C1_total_price_amended
      [{ menu_item_id := 1, menu_item_name := "Burger", quantity := 1, base_price := 8,
         add_ons := [{ add_on_id := 5, add_on_name := "Cheese", price := 2 }],
         total_price := 10 }] 0 2
      { id := 9, name := "Bacon", price := 3, category := "mains", type := none,
        is_available := true }
      { id := 2, name := "Fries", category := "sides", base_price := 3,
        description := none, is_available := true }
      [] [{ add_on_id := 9, add_on_name := "Bacon", price := 3 }]
      ⟨0, "", 0, 0, [], 0⟩ ⟨0, "", 0, 0, [], 0⟩ ⟨0, "", 0, 0, [], 0⟩
      { menu_item_id := 1, menu_item_name := "Burger", quantity := 1, base_price := 8,
        add_ons := [{ add_on_id := 9, add_on_name := "Bacon", price := 3 }],
        total_price := (8 : ℚ) * ((1 : Int) : ℚ)
          + ([{ add_on_id := 9, add_on_name := "Bacon", price := 3 }] :
              List AddOnSelection).foldl (fun sum ao => sum + ao.price) 0
            * ((1 : Int) : ℚ) }
      ⟨0, "", 0, 0, [], 0⟩).2.2.2.2 rfl

/-! ### C10: API-client order normalization -/

def isArrJson : Json → Bool
  | Json.arr _ => true
  | _ => false

def isStrJson : Json → Bool
  | Json.str _ => true
  | _ => false

def isArrOk : Except JsError Json → Bool
  | Except.ok (Json.arr _) => true
  | _ => false

theorem jsGet_jsSpreadSet (base : Json) (field : String) (value : Json) :
    jsGet (jsSpreadSet base field value) field = Except.ok value := by
  have hcons : ∀ (l : List (String × Json)),
      l.find? (fun p => p.1 == field) = none →
      jsGet (Json.obj (l ++ [(field, value)])) field = Except.ok value := by
    intro l hl
    show (match (l ++ [(field, value)]).find? (fun p => p.1 == field) with
      | some p => Except.ok p.2
      | none => Except.ok Json.undef) = Except.ok value
    rw [List.find?_append, hl]
    rw [List.find?_cons_of_pos _ (by simp)]
    rfl
  cases base with
  | obj fields =>
    refine hcons _ ?_
    rw [List.find?_eq_none]
    intro p hp
    have h2 := (List.mem_filter.mp hp).2
    simpa using h2
  | null => exact hcons [] rfl
  | undef => exact hcons [] rfl
  | nan => exact hcons [] rfl
  | bool b => exact hcons [] rfl
  | num n => exact hcons [] rfl
  | str s => exact hcons [] rfl
  | arr xs => exact hcons [] rfl

/-- C10 counterexample. Normalization is not total: a `null` order payload
makes `normalizeOrder` throw (JS property access on null), and `getAll`
propagates the throw instead of returning normalized orders. -/
theorem C10_normalize_counterexample :
    (normalizeOrder (fun _ => none) Json.null).isOk = false
    ∧ (getAllOrders (fun _ => none) (Json.arr [Json.null])).isOk = false :=
  ⟨rfl, rfl⟩

theorem except_bind_ok {α β : Type} (a : α) (f : α → Except JsError β) :
    (Except.ok a >>= f) = f a := rfl

theorem except_bind_error {α β : Type} (e : JsError) (f : α → Except JsError β) :
    ((Except.error e : Except JsError α) >>= f) = Except.error e := rfl

theorem except_bind_eq_ok {α β : Type} (x : Except JsError α)
    (f : α → Except JsError β) (b : β) :
    (x >>= f) = Except.ok b ↔ ∃ a, x = Except.ok a ∧ f a = Except.ok b := by
  cases x with
  | ok a => simp [except_bind_ok]
  | error e => simp [except_bind_error]

/-- C10 (amended). Order normalization is total except where JS itself
throws: a null/undefined order payload, a null/undefined line item, or a
non-nullish non-array `add_ons` value raises a TypeError that `getAll`
propagates. Otherwise: a non-array response body yields the empty order
list; whenever normalization succeeds the resulting `order_items` is an
array; a string `order_items` is parsed, with an unparseable or non-array
value (and any direct non-string non-array value) becoming the empty
list; a line item without `total_price` defaults it to
quantity × base_price; and a bare-string add-on becomes a record with
null id and price 0. -/
theorem C10_normalize_amended (parse : String → Option Json)
    (d order res v : Json) (s : String) (q b : ℚ) :
    (isArrJson d = false → getAllOrders parse d = Except.ok [])
    ∧ (normalizeOrder parse order = Except.ok res →
        isArrOk (jsGet res "order_items") = true)
    ∧ (jsGet order "order_items" = Except.ok (Json.str s) → parse s = none →
        normalizeOrder parse order
          = Except.ok (jsSpreadSet order "order_items" (Json.arr [])))
    ∧ (jsGet order "order_items" = Except.ok (Json.str s) → parse s = some v →
        isArrJson v = false →
        normalizeOrder parse order
          = Except.ok (jsSpreadSet order "order_items" (Json.arr [])))
    ∧ (jsGet order "order_items" = Except.ok v → isStrJson v = false →
        isArrJson v = false →
        normalizeOrder parse order
          = Except.ok (jsSpreadSet order "order_items" (Json.arr [])))
    ∧ standardizeItem (Json.obj [("menu_item_id", Json.num 7),
          ("quantity", Json.num q), ("base_price", Json.num b)])
        = Except.ok (Json.obj [("menu_item_id", Json.num 7),
            ("menu_item_name", Json.str ""), ("quantity", Json.num q),
            ("base_price", Json.num b), ("total_price", Json.num (q * b)),
            ("add_ons", Json.arr [])])
    ∧ standardizeAddOn (Json.str s)
        = Except.ok (Json.obj [("add_on_id", Json.null),
            ("add_on_name", Json.str s), ("price", Json.num 0)]) := by
  refine ⟨?_, ?_, ?_, ?_, ?_, rfl, rfl⟩
  · intro h
    cases d with
    | arr xs => simp [isArrJson] at h
    | null => rfl
    | undef => rfl
    | nan => rfl
    | bool x => rfl
    | num x => rfl
    | str x => rfl
    | obj x => rfl
  · intro h
    unfold normalizeOrder at h
    rw [except_bind_eq_ok] at h
    obtain ⟨itemsRaw, hj, h⟩ := h
    dsimp only at h
    rw [except_bind_eq_ok] at h
    obtain ⟨std, hm, h⟩ := h
    simp only [Except.ok.injEq] at h
    rw [← h, jsGet_jsSpreadSet]
    rfl
  · intro h1 h2
    unfold normalizeOrder
    rw [h1, except_bind_ok]
    dsimp only
    rw [h2]
    rfl
  · intro h1 h2 hv
    unfold normalizeOrder
    rw [h1, except_bind_ok]
    dsimp only
    rw [h2]
    cases v with
    | arr xs => simp [isArrJson] at hv
    | null => rfl
    | undef => rfl
    | nan => rfl
    | bool x => rfl
    | num x => rfl
    | str x => rfl
    | obj x => rfl
  · intro h1 hstr hv
    unfold normalizeOrder
    rw [h1, except_bind_ok]
    dsimp only
    cases v with
    | arr xs => simp [isArrJson] at hv
    | str x => simp [isStrJson] at hstr
    | null => rfl
    | undef => rfl
    | nan => rfl
    | bool x => rfl
    | num x => rfl
    | obj x => rfl

theorem C10_normalize_amended_witness :
    getAllOrders (fun _ => none) (Json.obj []) = Except.ok []
    ∧ isArrOk (jsGet (Json.obj [("order_items", Json.arr [])]) "order_items") = true
    ∧ normalizeOrder (fun _ => none) (Json.obj [("order_items", Json.str "oops")])
        = Except.ok (jsSpreadSet (Json.obj [("order_items", Json.str "oops")])
            "order_items" (Json.arr []))
    ∧ standardizeItem (Json.obj [("menu_item_id", Json.num 7),
          ("quantity", Json.num 2), ("base_price", Json.num 3)])
        = Except.ok (Json.obj [("menu_item_id", Json.num 7),
            ("menu_item_name", Json.str ""), ("quantity", Json.num 2),
            ("base_price", Json.num 3), ("total_price", Json.num (2 * 3)),
            ("add_ons", Json.arr [])])
    ∧ standardizeAddOn (Json.str "extra sauce")
        = Except.ok (Json.obj [("add_on_id", Json.null),
            ("add_on_name", Json.str "extra sauce"), ("price", Json.num 0)]) := by
  refine ⟨?_, ?_, ?_, ?_, ?_⟩
  · exact (C10_normalize_amended (fun _ => none) (Json.obj []) Json.null Json.null
      Json.null "" 0 0).1 rfl
  · exact (C10_normalize_amended (fun _ => none) Json.null (Json.obj [])
      (Json.obj [("order_items", Json.arr [])]) Json.null "" 0 0).2.1 rfl
  · exact (C10_normalize_amended (fun _ => none) Json.null
      (Json.obj [("order_items", Json.str "oops")]) Json.null Json.null "oops" 0 0).2.2.1
      rfl rfl
  · exact (C10_normalize_amended (fun _ => none) Json.null Json.null Json.null
      Json.null "" 2 3).2.2.2.2.2.1
  · exact (C10_normalize_amended (fun _ => none) Json.null Json.null Json.null
      Json.null "extra sauce" 0 0).2.2.2.2.2.2
